import Mathlib

/-!
Shallow embedding of the opening-hours interpretation engine of
src/app/api/restaurants/search/route.ts: the two helpers
`isRestaurantOpen` and `getRealTimeStatus`.  Schedule entries are
modelled as Lean strings; the JavaScript regular expression and the
string primitives the code relies on (toLowerCase, includes, split,
padStart, parseInt) are modelled character by character below.
-/

namespace WhereToEat

/-- ASCII model of JavaScript toLowerCase on a single character (the
strings the engine inspects: day names, the word closed, am and pm, are
all ASCII). -/
def lowerChar (c : Char) : Char :=
  if 65 ≤ c.toNat && c.toNat ≤ 90 then Char.ofNat (c.toNat + 32) else c

/-- ASCII model of JavaScript toUpperCase on a single character. -/
def upperChar (c : Char) : Char :=
  if 97 ≤ c.toNat && c.toNat ≤ 122 then Char.ofNat (c.toNat - 32) else c

/-- Lowercase every character of a string, as hours.toLowerCase(). -/
def lowerS (s : String) : String := String.mk (s.toList.map lowerChar)

/-- Does the character list start with the given pattern? -/
def startsWithL (pat : List Char) (s : List Char) : Bool :=
  match pat, s with
  | [], _ => true
  | _ :: _, [] => false
  | p :: ps, c :: cs => p == c && startsWithL ps cs

/-- Does pat occur as a contiguous run inside s?  Models
String.prototype.includes. -/
def containsL (pat : List Char) (s : List Char) : Bool :=
  match s with
  | [] => startsWithL pat []
  | _ :: cs => startsWithL pat s || containsL pat cs

/-- s.includes(pat) on Lean strings. -/
def containsStr (s pat : String) : Bool := containsL pat.toList s.toList

/-- The character codes JavaScript regular expressions treat as
whitespace for the backslash-s class. -/
def jsSpaceCodes : List Nat :=
  [9, 10, 11, 12, 13, 32, 160, 0x1680, 0x2000, 0x2001, 0x2002, 0x2003,
   0x2004, 0x2005, 0x2006, 0x2007, 0x2008, 0x2009, 0x200A, 0x2028,
   0x2029, 0x202F, 0x205F, 0x3000, 0xFEFF]

def isJsSpace (c : Char) : Bool := jsSpaceCodes.contains c.toNat

/-- The dash alternatives of the time-range pattern: hyphen-minus,
en dash, em dash. -/
def isDashChar (c : Char) : Bool :=
  c.toNat == 45 || c.toNat == 0x2013 || c.toNat == 0x2014

/-!
Model of the time-range regular expression used at every call site,
with the case-insensitive flag:

  a run of 1 or 2 digits, an optional colon followed by exactly 2
  digits, optional whitespace, am or pm, optional whitespace, one dash
  (hyphen, en dash or em dash), optional whitespace, and the same
  hour / optional-minutes / meridiem group again.

JavaScript match (no global flag) returns the leftmost match under
backtracking semantics.  For this particular pattern backtracking never
changes the outcome at a fixed start position, so the matcher below is
a deterministic sequential scan:
  - after the greedy 1-or-2 digit hour, every continuation starts with
    a colon test, whitespace skipping, or a meridiem letter, none of
    which can consume a digit, so giving a digit back never rescues a
    failed continuation;
  - when the optional colon-minutes group matches, the alternative of
    skipping it leaves the scan looking at the colon, which can start
    neither whitespace nor am or pm, so skipping never rescues either;
  - the whitespace runs are followed by a meridiem letter or a dash,
    neither of which is whitespace, so maximal munch is safe.
-/

/-- Capture groups of one successful regex match, in the order the code
destructures them: openHour, openMin, openPeriod, closeHour, closeMin,
closePeriod.  Hour captures are 1 or 2 digit characters; minute captures
are exactly 2 digit characters when present; period captures are the
two matched characters in their original case. -/
structure TimeMatch where
  openHour : List Char
  openMin : Option (List Char)
  openPeriod : List Char
  closeHour : List Char
  closeMin : Option (List Char)
  closePeriod : List Char
deriving DecidableEq, Repr

/-- Greedy match of 1 or 2 digits. -/
def take12Digits : List Char → Option (List Char × List Char)
  | [] => none
  | [d] => if d.isDigit then some ([d], []) else none
  | d1 :: d2 :: rest =>
    if d1.isDigit then
      if d2.isDigit then some ([d1, d2], rest)
      else some ([d1], d2 :: rest)
    else none

/-- The optional colon-plus-two-digits minutes group. -/
def matchOptColonMin : List Char → Option (List Char) × List Char
  | ':' :: d1 :: d2 :: rest =>
    if d1.isDigit && d2.isDigit then (some [d1, d2], rest)
    else (none, ':' :: d1 :: d2 :: rest)
  | cs => (none, cs)

/-- Drop a maximal run of regex whitespace. -/
def takeSpaces : List Char → List Char
  | [] => []
  | c :: cs => if isJsSpace c then takeSpaces cs else c :: cs

/-- Case-insensitive am or pm; the capture keeps the original case.
Under the case-insensitive flag the letter a matches exactly the
characters a and A (and similarly p and m), which the test spells out
explicitly. -/
def matchPeriod : List Char → Option (List Char × List Char)
  | a :: b :: rest =>
    if (a == 'a' || a == 'A' || a == 'p' || a == 'P') &&
       (b == 'm' || b == 'M') then
      some ([a, b], rest)
    else none
  | _ => none

/-- One dash character from the bracket class. -/
def matchDash : List Char → Option (List Char)
  | c :: rest => if isDashChar c then some rest else none
  | [] => none

/-- Try to match the whole pattern starting exactly at the head of the
list. -/
def matchAt (cs : List Char) : Option TimeMatch :=
  match take12Digits cs with
  | none => none
  | some (openHour, cs1) =>
    let openMin := (matchOptColonMin cs1).1
    let cs2 := (matchOptColonMin cs1).2
    match matchPeriod (takeSpaces cs2) with
    | none => none
    | some (openPeriod, cs3) =>
      match matchDash (takeSpaces cs3) with
      | none => none
      | some cs4 =>
        match take12Digits (takeSpaces cs4) with
        | none => none
        | some (closeHour, cs5) =>
          let closeMin := (matchOptColonMin cs5).1
          let cs6 := (matchOptColonMin cs5).2
          match matchPeriod (takeSpaces cs6) with
          | none => none
          | some (closePeriod, _) =>
            some ⟨openHour, openMin, openPeriod,
                  closeHour, closeMin, closePeriod⟩

/-- Leftmost match: try every start position from the left. -/
def searchTM : List Char → Option TimeMatch
  | [] => none
  | c :: cs =>
    match matchAt (c :: cs) with
    | some tm => some tm
    | none => searchTM cs

/-- hoursString.match(timeRangeRegex), reduced to its capture groups. -/
def timeMatch (s : String) : Option TimeMatch := searchTM s.toList

/-- parseInt on a capture that consists of digit characters only. -/
def parseIntD (ds : List Char) : Nat :=
  ds.foldl (fun a c => a * 10 + (c.toNat - 48)) 0

/-- Map a captured period to lowercase characters, as
period.toLowerCase(). -/
def lowerL (cs : List Char) : List Char := cs.map lowerChar

/-- Convert one side of a match to minutes since midnight, exactly as
each call site does: hour times 60 plus minutes, add 720 when the
period is pm and the hour is not 12, and overwrite with the bare
minutes when the period is am and the hour is 12. -/
def toMinutes (hour : List Char) (minute : Option (List Char))
    (period : List Char) : Nat :=
  let h := parseIntD hour
  let m := parseIntD (minute.getD ['0'])
  let base := h * 60 + m
  let base1 := if lowerL period = ['p', 'm'] ∧ h ≠ 12 then base + 720 else base
  if lowerL period = ['a', 'm'] ∧ h = 12 then m else base1

/-- Minutes since midnight of the open side of a match. -/
def openMinutesOf (tm : TimeMatch) : Nat :=
  toMinutes tm.openHour tm.openMin tm.openPeriod

/-- Minutes since midnight of the close side of a match. -/
def closeMinutesOf (tm : TimeMatch) : Nat :=
  toMinutes tm.closeHour tm.closeMin tm.closePeriod

/-- The 12-hour display string built from a match side, such as
openHour, a colon, (openMin or 00).padStart(2, 0), a space and
openPeriod.toUpperCase().  The padStart call never changes anything
because a present minutes capture is exactly two digits and the
default is the two-character 00. -/
def fmt12 (hour : List Char) (minute : Option (List Char))
    (period : List Char) : String :=
  String.mk (hour ++ ':' :: (minute.getD ['0', '0']) ++
             ' ' :: period.map upperChar)

/-- Split on the two-character delimiter colon-space, as
s.split with delimiter colon-space. -/
def splitCSAux : List Char → List Char → List (List Char)
  | [], acc => [acc.reverse]
  | ':' :: ' ' :: rest, acc => acc.reverse :: splitCSAux rest []
  | c :: rest, acc => splitCSAux rest (c :: acc)

/-- hoursString.split(colon-space)[1] || hoursString: the segment
between the first and second occurrence of the delimiter; the whole
string when there is no delimiter or the segment is the empty string
(the JavaScript or-operator treats the empty string as false). -/
def hoursAfterDay (s : String) : String :=
  match splitCSAux s.toList [] with
  | _ :: seg :: _ => if seg.isEmpty then s else String.mk seg
  | _ => s

/-- The lowercase day names, Google weekday order: Monday first. -/
def dayNames : List String :=
  ["monday", "tuesday", "wednesday", "thursday", "friday",
   "saturday", "sunday"]

/-- The display day names, Google weekday order. -/
def dayDisplayNames : List String :=
  ["Monday", "Tuesday", "Wednesday", "Thursday", "Friday",
   "Saturday", "Sunday"]

/-- The instant handed to the evaluator, already in venue-local time:
the JavaScript getDay value (0 is Sunday through 6 is Saturday) and the
getHours / getMinutes values. -/
structure Instant where
  day : Fin 7
  hour : Nat
  minute : Nat
deriving DecidableEq, Repr

/-- currentHour * 60 + currentMinute. -/
def timeInMinutes (now : Instant) : Nat := now.hour * 60 + now.minute

/-- Index of yesterday in the Google-ordered day tables:
currentDay === 0 ? 5 : (currentDay === 1 ? 6 : currentDay - 2). -/
def yesterdayDayIndex (currentDay : Fin 7) : Nat :=
  if currentDay.val = 0 then 5
  else if currentDay.val = 1 then 6
  else currentDay.val - 2

/-- Index of today in the Google-ordered day tables:
currentDay === 0 ? 6 : currentDay - 1. -/
def googleDayIndex (currentDay : Fin 7) : Nat :=
  if currentDay.val = 0 then 6 else currentDay.val - 1

/-- openingHours.find of an entry whose lowercase text includes the
given lowercase day name. -/
def findDayEntry (openingHours : List String) (dayName : String) :
    Option String :=
  openingHours.find? (fun h => containsStr (lowerS h) dayName)

/-- The currentPeriod object of the returned status. -/
structure CurrentPeriod where
  day : String
  hours : String
  isOvernightPeriod : Bool
  closesAt : Option String
deriving DecidableEq, Repr

/-- The structured status getRealTimeStatus returns.  Every return
statement of the source sets message, so it is modelled as a plain
string; currentPeriod is optional exactly as in the source. -/
structure RealTimeStatus where
  isOpen : Bool
  currentPeriod : Option CurrentPeriod
  message : String
deriving DecidableEq, Repr

/-- A single apostrophe, used by the overnight-hours messages. -/
def apos : String := String.mk [Char.ofNat 39]

/-- The early-return of getRealTimeStatus that checks whether the
venue is still inside the overnight period of yesterday, taken before
today is examined: find the entry containing yesterday, skip it when
it is marked closed or the regex fails, and return open when the close
period is am, the close time is at most 720 minutes and the current
time is at most the close time; none means the source falls through. -/
def yesterdayEntryStatus (currentTimeInMinutes : Nat)
    (yesterdayDisplayName : String) (yesterdayHours : String) :
    Option RealTimeStatus :=
  if containsStr (lowerS yesterdayHours) "closed" then none
  else
    match timeMatch yesterdayHours with
    | none => none
    | some tm =>
      let closeTimeInMinutes := closeMinutesOf tm
      if lowerL tm.closePeriod = ['a', 'm'] ∧ closeTimeInMinutes ≤ 720 ∧
         currentTimeInMinutes ≤ closeTimeInMinutes then
        let closeTime12hr := fmt12 tm.closeHour tm.closeMin tm.closePeriod
        some { isOpen := true,
               currentPeriod := some
                 { day := yesterdayDisplayName,
                   hours := hoursAfterDay yesterdayHours,
                   isOvernightPeriod := true,
                   closesAt := some closeTime12hr },
               message := "Open until " ++ closeTime12hr ++ " (" ++
                 yesterdayDisplayName ++ apos ++ "s overnight hours)" }
      else none

def yesterdayReturn (openingHours : List String) (now : Instant) :
    Option RealTimeStatus :=
  match findDayEntry openingHours
      (dayNames.getD (yesterdayDayIndex now.day) "") with
  | none => none
  | some yesterdayHours =>
    yesterdayEntryStatus (timeInMinutes now)
      (dayDisplayNames.getD (yesterdayDayIndex now.day) "") yesterdayHours

/-- What the today branch of getRealTimeStatus returns for the found
entry: none exactly when the entry is not marked closed and the regex
fails, when the source falls through to the fallback. -/
def todayEntryStatus (currentTimeInMinutes : Nat)
    (todayDisplayName : String) (todayHours : String) :
    Option RealTimeStatus :=
  if containsStr (lowerS todayHours) "closed" then
      some { isOpen := false,
             currentPeriod := some
               { day := todayDisplayName, hours := "Closed",
                 isOvernightPeriod := false, closesAt := none },
             message := "Closed today (" ++ todayDisplayName ++ ")" }
    else
      match timeMatch todayHours with
      | none => none
      | some tm =>
        let openTimeInMinutes := openMinutesOf tm
        let closeTimeInMinutes := closeMinutesOf tm
        let openTime12hr := fmt12 tm.openHour tm.openMin tm.openPeriod
        let closeTime12hr := fmt12 tm.closeHour tm.closeMin tm.closePeriod
        let periodHours := hoursAfterDay todayHours
        if closeTimeInMinutes < openTimeInMinutes then
          -- overnight range; the source computes
          -- current >= open || current <= close first and then splits
          -- the open case on current >= open, which is the same
          -- three-way decision written directly
          if openTimeInMinutes ≤ currentTimeInMinutes then
            some { isOpen := true,
                   currentPeriod := some
                     { day := todayDisplayName, hours := periodHours,
                       isOvernightPeriod := true,
                       closesAt := some closeTime12hr },
                   message := "Open until " ++ closeTime12hr ++
                     " tomorrow (overnight hours)" }
          else if currentTimeInMinutes ≤ closeTimeInMinutes then
            some { isOpen := true,
                   currentPeriod := some
                     { day := todayDisplayName, hours := periodHours,
                       isOvernightPeriod := true,
                       closesAt := some closeTime12hr },
                   message := "Open until " ++ closeTime12hr ++ " (" ++
                     todayDisplayName ++ apos ++ "s overnight hours)" }
          else
            some { isOpen := false,
                   currentPeriod := some
                     { day := todayDisplayName, hours := periodHours,
                       isOvernightPeriod := true, closesAt := none },
                   message := "Closed - Opens at " ++ openTime12hr }
        else
          let isCurrentlyOpen : Bool :=
            decide (openTimeInMinutes ≤ currentTimeInMinutes ∧
                    currentTimeInMinutes ≤ closeTimeInMinutes)
          some { isOpen := isCurrentlyOpen,
                 currentPeriod := some
                   { day := todayDisplayName, hours := periodHours,
                     isOvernightPeriod := false,
                     closesAt := if isCurrentlyOpen then some closeTime12hr
                                 else none },
                 message :=
                   if isCurrentlyOpen then "Open until " ++ closeTime12hr
                   else if currentTimeInMinutes < openTimeInMinutes then
                     "Closed - Opens at " ++ openTime12hr
                   else "Closed - Opens " ++ openTime12hr ++ " tomorrow" }

/-- The today part of getRealTimeStatus: none exactly when the source
falls through to the fallback. -/
def todayReturn (openingHours : List String) (now : Instant) :
    Option RealTimeStatus :=
  match findDayEntry openingHours
      (dayNames.getD (googleDayIndex now.day) "") with
  | none => none
  | some todayHours =>
    todayEntryStatus (timeInMinutes now)
      (dayDisplayNames.getD (googleDayIndex now.day) "") todayHours

/-- The final fallback to the Google openNow flag; an undefined flag
behaves as false through the or-defaulting of the source. -/
def fallbackStatus (googleOpenNow : Bool) : RealTimeStatus :=
  { isOpen := googleOpenNow,
    currentPeriod := none,
    message := if googleOpenNow then "Currently open" else "Currently closed" }

/-- getRealTimeStatus of the source: empty (or absent) schedule short
circuit, then the yesterday overnight check, then today, then the
fallback. -/
def getRealTimeStatus (openingHours : List String) (googleOpenNow : Bool)
    (now : Instant) : RealTimeStatus :=
  if openingHours.isEmpty then
    { isOpen := false, currentPeriod := none,
      message := "Hours not available" }
  else
    match yesterdayReturn openingHours now with
    | some st => st
    | none =>
      match todayReturn openingHours now with
      | some st => st
      | none => fallbackStatus googleOpenNow

/-- checkTimeRange of isRestaurantOpen: closed marker, regex, minutes
conversion, then the overnight or same-day containment test. -/
def checkTimeRange (currentTimeInMinutes : Nat) (hoursString : String) :
    Bool :=
  if containsStr (lowerS hoursString) "closed" then false
  else
    match timeMatch hoursString with
    | none => false
    | some tm =>
      let openTimeInMinutes := openMinutesOf tm
      let closeTimeInMinutes := closeMinutesOf tm
      if closeTimeInMinutes < openTimeInMinutes then
        decide (openTimeInMinutes ≤ currentTimeInMinutes) ||
        decide (currentTimeInMinutes ≤ closeTimeInMinutes)
      else
        decide (openTimeInMinutes ≤ currentTimeInMinutes) &&
        decide (currentTimeInMinutes ≤ closeTimeInMinutes)

/-- The yesterday overnight test of isRestaurantOpen on the found
entry, with the very same closed test, regex and close-minutes
conversion as the status function. -/
def yesterdayOvernightB (currentTimeInMinutes : Nat)
    (yesterdayHours : String) : Bool :=
  if containsStr (lowerS yesterdayHours) "closed" then false
  else
    match timeMatch yesterdayHours with
    | none => false
    | some tm =>
      decide (lowerL tm.closePeriod = ['a', 'm'] ∧
              closeMinutesOf tm ≤ 720 ∧
              currentTimeInMinutes ≤ closeMinutesOf tm)

/-- The yesterday overnight test of isRestaurantOpen, with the very
same day lookup as the status function. -/
def yesterdayOpenCheck (openingHours : List String) (now : Instant) :
    Bool :=
  match findDayEntry openingHours
      (dayNames.getD (yesterdayDayIndex now.day) "") with
  | none => false
  | some yesterdayHours =>
    yesterdayOvernightB (timeInMinutes now) yesterdayHours

/-- The today test of isRestaurantOpen. -/
def todayOpenCheck (openingHours : List String) (now : Instant) : Bool :=
  match findDayEntry openingHours
      (dayNames.getD (googleDayIndex now.day) "") with
  | none => false
  | some todayHours => checkTimeRange (timeInMinutes now) todayHours

/-- isRestaurantOpen of the source: closed on an empty list, else the
yesterday overnight test, else the today test. -/
def isRestaurantOpen (openingHours : List String) (now : Instant) : Bool :=
  if openingHours.isEmpty then false
  else if yesterdayOpenCheck openingHours now then true
  else todayOpenCheck openingHours now

/-- Recognizer for the 12-hour display format: one or two digits, a
colon, two digits, a space, then AM or PM. -/
def is12HourFormat (s : String) : Bool :=
  match s.toList with
  | [h1, ':', m1, m2, ' ', p, 'M'] =>
    h1.isDigit && m1.isDigit && m2.isDigit && (p == 'A' || p == 'P')
  | [h1, h2, ':', m1, m2, ' ', p, 'M'] =>
    h1.isDigit && h2.isDigit && m1.isDigit && m2.isDigit &&
    (p == 'A' || p == 'P')
  | _ => false

/-- Shape of an hour capture: one or two digit characters. -/
def digits12 (ds : List Char) : Prop :=
  (∃ d, ds = [d] ∧ d.isDigit = true) ∨
  (∃ d1 d2, ds = [d1, d2] ∧ d1.isDigit = true ∧ d2.isDigit = true)

/-- Shape of a minutes capture: absent, or exactly two digit
characters. -/
def minShape : Option (List Char) → Prop
  | none => True
  | some ms => ∃ m1 m2, ms = [m1, m2] ∧ m1.isDigit = true ∧ m2.isDigit = true

/-- Shape of a period capture, expressed through its uppercase image. -/
def periodShape (ps : List Char) : Prop :=
  ps.map upperChar = ['A', 'M'] ∨ ps.map upperChar = ['P', 'M']

/-! Concrete schedules and instants used by the claim theorems. -/

/-- A schedule that contains the literal entry Monday: Closed next to
a Sunday entry with overnight hours. -/
def sundayOvernightMondayClosed : List String :=
  ["Sunday: 5:00 pm – 2:00 am", "Monday: Closed"]

/-- Monday at 01:00 venue-local time. -/
def mondayAt0100 : Instant := ⟨1, 1, 0⟩

/-- Monday at noon venue-local time. -/
def mondayAtNoon : Instant := ⟨1, 12, 0⟩

/-- A plain same-day morning range on Monday. -/
def mondayMorningSchedule : List String := ["Monday: 9:00 am – 11:00 am"]

/-- Tuesday at 10:00 venue-local time. -/
def tuesdayAt1000 : Instant := ⟨2, 10, 0⟩

/-- The overnight Friday schedule of the spec examples. -/
def fridayOvernightSchedule : List String := ["Friday: 5:00 pm – 2:00 am"]

/-- The overnight Friday schedule together with a Saturday entry. -/
def fridayOvernightWithSaturday : List String :=
  ["Friday: 5:00 pm – 2:00 am", "Saturday: 4:00 am – 5:00 am"]

/-- The workday Monday schedule of the spec examples. -/
def mondayWorkdaySchedule : List String := ["Monday: 9:00 am – 5:00 pm"]

/-- A Monday entry the time-range regex cannot parse. -/
def mondayMalformedSchedule : List String := ["Monday: Sometimes open"]

/-- Another unparsable Monday entry. -/
def mondayWheneverSchedule : List String := ["Monday: whenever"]

/-!
Helper lemmas shared by the claim theorems.
-/

theorem isEmpty_false_of_findDayEntry {oh : List String} {d e : String}
    (h : findDayEntry oh d = some e) : oh.isEmpty = false := by
  cases oh with
  | nil => simp [findDayEntry] at h
  | cons a l => rfl

theorem getRealTimeStatus_yesterday_none {oh : List String} {now : Instant}
    (g : Bool) (hne : oh.isEmpty = false)
    (hy : yesterdayReturn oh now = none) :
    getRealTimeStatus oh g now =
      (todayReturn oh now).getD (fallbackStatus g) := by
  unfold getRealTimeStatus
  rw [hne, hy]
  cases todayReturn oh now <;> rfl

theorem yesterdayReturn_found {oh : List String} {now : Instant} {e : String}
    (hfind : findDayEntry oh (dayNames.getD (yesterdayDayIndex now.day) "")
      = some e) :
    yesterdayReturn oh now =
      yesterdayEntryStatus (timeInMinutes now)
        (dayDisplayNames.getD (yesterdayDayIndex now.day) "") e := by
  unfold yesterdayReturn
  rw [hfind]

theorem todayReturn_found {oh : List String} {now : Instant} {e : String}
    (hfind : findDayEntry oh (dayNames.getD (googleDayIndex now.day) "")
      = some e) :
    todayReturn oh now =
      todayEntryStatus (timeInMinutes now)
        (dayDisplayNames.getD (googleDayIndex now.day) "") e := by
  unfold todayReturn
  rw [hfind]

theorem todayEntryStatus_unparsable {c : Nat} {d e : String}
    (hnc : containsStr (lowerS e) "closed" = false)
    (hnm : timeMatch e = none) :
    todayEntryStatus c d e = none := by
  unfold todayEntryStatus
  rw [hnc, hnm]
  rfl

theorem todayOpenCheck_unparsable {oh : List String} {now : Instant}
    {e : String}
    (hfind : findDayEntry oh (dayNames.getD (googleDayIndex now.day) "")
      = some e)
    (hnc : containsStr (lowerS e) "closed" = false)
    (hnm : timeMatch e = none) :
    todayOpenCheck oh now = false := by
  unfold todayOpenCheck
  rw [hfind]
  show checkTimeRange (timeInMinutes now) e = false
  unfold checkTimeRange
  rw [hnc, hnm]
  rfl

theorem yesterdayOvernightB_eq_isSome (c : Nat) (d e : String) :
    yesterdayOvernightB c e = (yesterdayEntryStatus c d e).isSome := by
  unfold yesterdayOvernightB yesterdayEntryStatus
  by_cases hc : containsStr (lowerS e) "closed" = true
  · simp [hc]
  · rw [Bool.not_eq_true] at hc
    rw [hc]
    cases timeMatch e with
    | none => rfl
    | some tm =>
      by_cases hcond : lowerL tm.closePeriod = ['a', 'm'] ∧
          closeMinutesOf tm ≤ 720 ∧ c ≤ closeMinutesOf tm <;>
        simp [hcond]

theorem yesterdayOpenCheck_eq_isSome (oh : List String) (now : Instant) :
    yesterdayOpenCheck oh now = (yesterdayReturn oh now).isSome := by
  unfold yesterdayOpenCheck yesterdayReturn
  cases findDayEntry oh (dayNames.getD (yesterdayDayIndex now.day) "") with
  | none => rfl
  | some e => exact yesterdayOvernightB_eq_isSome _ _ e

theorem getRealTimeStatus_yesterday_some {oh : List String} {now : Instant}
    {st : RealTimeStatus} (g : Bool) (hne : oh.isEmpty = false)
    (hy : yesterdayReturn oh now = some st) :
    getRealTimeStatus oh g now = st := by
  unfold getRealTimeStatus
  rw [hne, hy]
  rfl

theorem yesterdayEntryStatus_isOpen {c : Nat} {d e : String}
    {st : RealTimeStatus} (h : yesterdayEntryStatus c d e = some st) :
    st.isOpen = true := by
  unfold yesterdayEntryStatus at h
  by_cases hc : containsStr (lowerS e) "closed" = true
  · rw [hc] at h
    simp at h
  · rw [Bool.not_eq_true] at hc
    rw [hc] at h
    simp only [Bool.false_eq_true, if_false] at h
    cases htm : timeMatch e with
    | none => rw [htm] at h; cases h
    | some tm =>
      rw [htm] at h
      simp only at h
      by_cases hcond : lowerL tm.closePeriod = ['a', 'm'] ∧
          closeMinutesOf tm ≤ 720 ∧ c ≤ closeMinutesOf tm
      · rw [if_pos hcond] at h
        cases h
        rfl
      · rw [if_neg hcond] at h
        cases h

theorem yesterdayReturn_inv {oh : List String} {now : Instant}
    {st : RealTimeStatus} (h : yesterdayReturn oh now = some st) :
    ∃ e, findDayEntry oh (dayNames.getD (yesterdayDayIndex now.day) "")
        = some e ∧
      yesterdayEntryStatus (timeInMinutes now)
        (dayDisplayNames.getD (yesterdayDayIndex now.day) "") e = some st := by
  unfold yesterdayReturn at h
  cases hf : findDayEntry oh (dayNames.getD (yesterdayDayIndex now.day) "")
    with
  | none => rw [hf] at h; cases h
  | some e => rw [hf] at h; exact ⟨e, rfl, h⟩

theorem todayReturn_inv {oh : List String} {now : Instant}
    {st : RealTimeStatus} (h : todayReturn oh now = some st) :
    ∃ e, findDayEntry oh (dayNames.getD (googleDayIndex now.day) "")
        = some e ∧
      todayEntryStatus (timeInMinutes now)
        (dayDisplayNames.getD (googleDayIndex now.day) "") e = some st := by
  unfold todayReturn at h
  cases hf : findDayEntry oh (dayNames.getD (googleDayIndex now.day) "") with
  | none => rw [hf] at h; cases h
  | some e => rw [hf] at h; exact ⟨e, rfl, h⟩

theorem todayReturn_none_inv {oh : List String} {now : Instant} {e : String}
    (h : todayReturn oh now = none)
    (hfind : findDayEntry oh (dayNames.getD (googleDayIndex now.day) "")
      = some e) :
    containsStr (lowerS e) "closed" = false ∧ timeMatch e = none := by
  rw [todayReturn_found hfind] at h
  unfold todayEntryStatus at h
  by_cases hc : containsStr (lowerS e) "closed" = true
  · rw [hc] at h
    simp at h
  · rw [Bool.not_eq_true] at hc
    refine ⟨hc, ?_⟩
    rw [hc] at h
    simp only [Bool.false_eq_true, if_false] at h
    cases htm : timeMatch e with
    | none => rfl
    | some tm =>
      rw [htm] at h
      exfalso
      simp only at h
      by_cases hov : closeMinutesOf tm < openMinutesOf tm
      · rw [if_pos hov] at h
        by_cases h1 : openMinutesOf tm ≤ timeInMinutes now
        · rw [if_pos h1] at h; cases h
        · rw [if_neg h1] at h
          by_cases h2 : timeInMinutes now ≤ closeMinutesOf tm
          · rw [if_pos h2] at h; cases h
          · rw [if_neg h2] at h; cases h
      · rw [if_neg hov] at h; cases h

/-- C10: the empty (or absent) schedule always yields isOpen false and
the message Hours not available, for every instant and every value of
the fallback flag. -/
theorem c10_empty_schedule (googleOpenNow : Bool) (now : Instant) :
    getRealTimeStatus [] googleOpenNow now =
      { isOpen := false, currentPeriod := none,
        message := "Hours not available" } := rfl

/-- C3: the yesterday-carryover check never compares the close time
against the open time, so the ordinary same-day morning range
Monday 9:00 am to 11:00 am, evaluated on Tuesday at 10:00, comes back
open with isOvernightPeriod true and the overnight-hours message for
Monday. -/
theorem c3_carryover_misfires_on_morning_range :
    getRealTimeStatus mondayMorningSchedule false tuesdayAt1000 =
      { isOpen := true,
        currentPeriod := some
          { day := "Monday", hours := "9:00 am – 11:00 am",
            isOvernightPeriod := true, closesAt := some "11:00 AM" },
        message := "Open until 11:00 AM (Monday" ++ apos ++
          "s overnight hours)" } := by decide

/-- C4: the schedule Friday 5:00 pm to 2:00 am evaluated at Saturday
01:30 takes the yesterday-carryover path: open, currentPeriod day
Friday, isOvernightPeriod true, closesAt 2:00 AM, and the
overnight-hours message for Friday. -/
theorem c4_friday_overnight_carryover :
    getRealTimeStatus fridayOvernightSchedule false ⟨6, 1, 30⟩ =
      { isOpen := true,
        currentPeriod := some
          { day := "Friday", hours := "5:00 pm – 2:00 am",
            isOvernightPeriod := true, closesAt := some "2:00 AM" },
        message := "Open until 2:00 AM (Friday" ++ apos ++
          "s overnight hours)" } := by decide

/-- C5: Friday 5:00 pm to 2:00 am at Friday 23:00 is open with the
message Open until 2:00 AM tomorrow (overnight hours); at Saturday
03:00 the overnight window is over, and the evaluation falls through
to the fallback for the singleton schedule (both flag values shown)
and to the Saturday entry when one is present. -/
theorem c5_friday_overnight_boundaries :
    getRealTimeStatus fridayOvernightSchedule false ⟨5, 23, 0⟩ =
      { isOpen := true,
        currentPeriod := some
          { day := "Friday", hours := "5:00 pm – 2:00 am",
            isOvernightPeriod := true, closesAt := some "2:00 AM" },
        message := "Open until 2:00 AM tomorrow (overnight hours)" } ∧
    getRealTimeStatus fridayOvernightSchedule false ⟨6, 3, 0⟩ =
      { isOpen := false, currentPeriod := none,
        message := "Currently closed" } ∧
    getRealTimeStatus fridayOvernightSchedule true ⟨6, 3, 0⟩ =
      { isOpen := true, currentPeriod := none,
        message := "Currently open" } ∧
    getRealTimeStatus fridayOvernightWithSaturday false ⟨6, 3, 0⟩ =
      { isOpen := false,
        currentPeriod := some
          { day := "Saturday", hours := "4:00 am – 5:00 am",
            isOvernightPeriod := false, closesAt := none },
        message := "Closed - Opens at 4:00 AM" } := by decide

/-- C8: Monday 9:00 am to 5:00 pm on a Monday: closed at 08:59 with
the opens-at message, open at 09:00 and still open at 17:00 (the close
boundary is inclusive) with closesAt 5:00 PM, and closed again at
17:01. -/
theorem c8_same_day_boundaries :
    getRealTimeStatus mondayWorkdaySchedule false ⟨1, 8, 59⟩ =
      { isOpen := false,
        currentPeriod := some
          { day := "Monday", hours := "9:00 am – 5:00 pm",
            isOvernightPeriod := false, closesAt := none },
        message := "Closed - Opens at 9:00 AM" } ∧
    getRealTimeStatus mondayWorkdaySchedule false ⟨1, 9, 0⟩ =
      { isOpen := true,
        currentPeriod := some
          { day := "Monday", hours := "9:00 am – 5:00 pm",
            isOvernightPeriod := false, closesAt := some "5:00 PM" },
        message := "Open until 5:00 PM" } ∧
    getRealTimeStatus mondayWorkdaySchedule false ⟨1, 17, 0⟩ =
      { isOpen := true,
        currentPeriod := some
          { day := "Monday", hours := "9:00 am – 5:00 pm",
            isOvernightPeriod := false, closesAt := some "5:00 PM" },
        message := "Open until 5:00 PM" } ∧
    getRealTimeStatus mondayWorkdaySchedule false ⟨1, 17, 1⟩ =
      { isOpen := false,
        currentPeriod := some
          { day := "Monday", hours := "9:00 am – 5:00 pm",
            isOvernightPeriod := false, closesAt := none },
        message := "Closed - Opens 9:00 AM tomorrow" } := by decide

/-- C1 counterexample: a schedule that does contain the entry
Monday: Closed, evaluated on a Monday (at 01:00), nevertheless comes
back open, because the yesterday-carryover check runs first and a
Sunday overnight entry wins; so the claim fails as stated, for either
fallback value. -/
theorem c1_counterexample :
    sundayOvernightMondayClosed.contains "Monday: Closed" = true ∧
    mondayAt0100.day = (1 : Fin 7) ∧
    (getRealTimeStatus sundayOvernightMondayClosed false mondayAt0100).isOpen
      = true ∧
    (getRealTimeStatus sundayOvernightMondayClosed true mondayAt0100).isOpen
      = true := by decide

/-- C2 counterexample: the matched Monday entry is not marked closed
and the regex fails on it, yet with the fallback flag set the
evaluation reports the venue open, so unparsable ranges are not
unconditionally reported closed. -/
theorem c2_counterexample :
    findDayEntry mondayWheneverSchedule "monday" = some "Monday: whenever" ∧
    containsStr (lowerS "Monday: whenever") "closed" = false ∧
    timeMatch "Monday: whenever" = none ∧
    (getRealTimeStatus mondayWheneverSchedule true mondayAtNoon).isOpen
      = true := by decide

/-- C7 counterexample: a schedule entry matching the day name of the
instant is found, but because its range is unparsable the result falls
back and carries no currentPeriod at all. -/
theorem c7_counterexample :
    findDayEntry mondayMalformedSchedule "monday" =
      some "Monday: Sometimes open" ∧
    (getRealTimeStatus mondayMalformedSchedule false mondayAtNoon).currentPeriod
      = none := by decide

/-- C1 amended: on a Monday, whenever the yesterday-carryover check
does not fire and the first entry whose lowercase text contains monday
is marked closed, the evaluation returns isOpen false and the message
Closed today (Monday), for every fallback value. -/
theorem c1_monday_closed_amended (oh : List String) (g : Bool)
    (now : Instant) (e : String)
    (hday : now.day = (1 : Fin 7))
    (hy : yesterdayReturn oh now = none)
    (hfind : findDayEntry oh "monday" = some e)
    (hclosed : containsStr (lowerS e) "closed" = true) :
    (getRealTimeStatus oh g now).isOpen = false ∧
    (getRealTimeStatus oh g now).message = "Closed today (Monday)" := by
  have hne := isEmpty_false_of_findDayEntry hfind
  have hname : dayNames.getD (googleDayIndex now.day) "" = "monday" := by
    rw [hday]; decide
  have hdisp : dayDisplayNames.getD (googleDayIndex now.day) "" = "Monday" := by
    rw [hday]; decide
  have hfind2 : findDayEntry oh (dayNames.getD (googleDayIndex now.day) "")
      = some e := by rw [hname]; exact hfind
  have ht : todayReturn oh now = some
      { isOpen := false,
        currentPeriod := some
          { day := "Monday", hours := "Closed",
            isOvernightPeriod := false, closesAt := none },
        message := "Closed today (" ++ "Monday" ++ ")" } := by
    rw [todayReturn_found hfind2, hdisp]
    unfold todayEntryStatus
    rw [hclosed]
    rfl
  rw [getRealTimeStatus_yesterday_none g hne hy, ht]
  exact ⟨rfl, rfl⟩

/-- C1 witness: the singleton schedule Monday: Closed on Monday at
noon with the fallback flag set. -/
theorem c1_witness :
    (getRealTimeStatus ["Monday: Closed"] true mondayAtNoon).isOpen = false ∧
    (getRealTimeStatus ["Monday: Closed"] true mondayAtNoon).message
      = "Closed today (Monday)" :=
  c1_monday_closed_amended ["Monday: Closed"] true mondayAtNoon
    "Monday: Closed" rfl (by decide) (by decide) (by decide)

/-- C2 amended: when the entry found for today is not marked closed
and its range the regex cannot parse, and the yesterday-carryover does
not fire, the schedule itself never makes the venue open: the status
isOpen equals the fallback flag (so false when the flag is false or
absent) and isRestaurantOpen, which has no fallback, returns false. -/
theorem c2_unparsable_fail_safe (oh : List String) (g : Bool)
    (now : Instant) (e : String)
    (hy : yesterdayReturn oh now = none)
    (hfind : findDayEntry oh (dayNames.getD (googleDayIndex now.day) "")
      = some e)
    (hnc : containsStr (lowerS e) "closed" = false)
    (hnm : timeMatch e = none) :
    (getRealTimeStatus oh g now).isOpen = g ∧
    isRestaurantOpen oh now = false := by
  have hne := isEmpty_false_of_findDayEntry hfind
  have ht : todayReturn oh now = none := by
    rw [todayReturn_found hfind]
    exact todayEntryStatus_unparsable hnc hnm
  constructor
  · rw [getRealTimeStatus_yesterday_none g hne hy, ht]
    rfl
  · unfold isRestaurantOpen
    rw [hne, yesterdayOpenCheck_eq_isSome, hy,
        todayOpenCheck_unparsable hfind hnc hnm]
    rfl

/-- C2 witness: the schedule Monday: whenever on Monday at noon with
the fallback flag clear. -/
theorem c2_witness :
    (getRealTimeStatus mondayWheneverSchedule false mondayAtNoon).isOpen
      = false ∧
    isRestaurantOpen mondayWheneverSchedule mondayAtNoon = false :=
  c2_unparsable_fail_safe mondayWheneverSchedule false mondayAtNoon
    "Monday: whenever" (by decide) (by decide) (by decide) (by decide)

/-- C9: when the entry found for today is malformed (not marked closed
and unparsable) and the yesterday-carryover does not fire, the
evaluation returns the fallback status: isOpen equals the fallback
flag and the message is Currently open or Currently closed; the
embedding is a total function, so no exception is possible. -/
theorem c9_malformed_falls_back (oh : List String) (g : Bool)
    (now : Instant) (e : String)
    (hy : yesterdayReturn oh now = none)
    (hfind : findDayEntry oh (dayNames.getD (googleDayIndex now.day) "")
      = some e)
    (hnc : containsStr (lowerS e) "closed" = false)
    (hnm : timeMatch e = none) :
    getRealTimeStatus oh g now =
      { isOpen := g, currentPeriod := none,
        message := if g then "Currently open" else "Currently closed" } := by
  have hne := isEmpty_false_of_findDayEntry hfind
  have ht : todayReturn oh now = none := by
    rw [todayReturn_found hfind]
    exact todayEntryStatus_unparsable hnc hnm
  rw [getRealTimeStatus_yesterday_none g hne hy, ht]
  rfl

/-- C9 witness: the schedule Monday: Sometimes open of the spec,
evaluated on Monday at noon with the fallback flag set. -/
theorem c9_witness :
    getRealTimeStatus mondayMalformedSchedule true mondayAtNoon =
      { isOpen := true, currentPeriod := none,
        message := "Currently open" } := by
  simpa using c9_malformed_falls_back mondayMalformedSchedule true
    mondayAtNoon "Monday: Sometimes open" (by decide) (by decide)
    (by decide) (by decide)

theorem todayEntryStatus_isOpen_eq_checkTimeRange (c : Nat) (d e : String) :
    ((todayEntryStatus c d e).getD (fallbackStatus false)).isOpen =
      checkTimeRange c e := by
  unfold todayEntryStatus checkTimeRange
  by_cases hc : containsStr (lowerS e) "closed" = true
  · simp [hc]
  · rw [Bool.not_eq_true] at hc
    rw [hc]
    simp only [Bool.false_eq_true, if_false]
    cases timeMatch e with
    | none => rfl
    | some tm =>
      simp only [Option.getD_some]
      by_cases hov : closeMinutesOf tm < openMinutesOf tm
      · rw [if_pos hov, if_pos hov]
        by_cases h1 : openMinutesOf tm ≤ c
        · simp [h1]
        · by_cases h2 : c ≤ closeMinutesOf tm <;> simp [h1, h2]
      · rw [if_neg hov, if_neg hov]
        by_cases h1 : openMinutesOf tm ≤ c <;>
          by_cases h2 : c ≤ closeMinutesOf tm <;> simp [h1, h2]

theorem yesterdayReturn_isOpen {oh : List String} {now : Instant}
    {st : RealTimeStatus} (h : yesterdayReturn oh now = some st) :
    st.isOpen = true := by
  obtain ⟨e, _, he⟩ := yesterdayReturn_inv h
  exact yesterdayEntryStatus_isOpen he

/-- C6: the boolean helper and the status function agree on the
open/closed verdict for every schedule and every instant, when the
fallback flag is false or absent. -/
theorem c6_duplicated_logic_agrees (oh : List String) (now : Instant) :
    isRestaurantOpen oh now = (getRealTimeStatus oh false now).isOpen := by
  unfold isRestaurantOpen
  by_cases he : oh.isEmpty = true
  · rw [he]
    unfold getRealTimeStatus
    rw [he]
    rfl
  · rw [Bool.not_eq_true] at he
    rw [he]
    simp only [Bool.false_eq_true, if_false]
    rw [yesterdayOpenCheck_eq_isSome]
    cases hy : yesterdayReturn oh now with
    | some st =>
      rw [getRealTimeStatus_yesterday_some false he hy,
          yesterdayReturn_isOpen hy]
      rfl
    | none =>
      rw [getRealTimeStatus_yesterday_none false he hy]
      simp only [Option.isSome_none, Bool.false_eq_true, if_false]
      unfold todayOpenCheck
      cases ht : findDayEntry oh (dayNames.getD (googleDayIndex now.day) "")
        with
      | none =>
        unfold todayReturn
        rw [ht]
        rfl
      | some e =>
        rw [todayReturn_found ht]
        exact (todayEntryStatus_isOpen_eq_checkTimeRange
          (timeInMinutes now)
          (dayDisplayNames.getD (googleDayIndex now.day) "") e).symm

theorem append_ne_empty_left {s : String} (hs : s ≠ "") (t : String) :
    s ++ t ≠ "" := by
  intro h
  apply hs
  cases s with
  | mk a =>
    cases t with
    | mk b =>
      have h2 : a ++ b = ([] : List Char) := congrArg String.data h
      rcases List.append_eq_nil.mp h2 with ⟨rfl, -⟩
      rfl

theorem take12Digits_shape {cs ds rest : List Char}
    (h : take12Digits cs = some (ds, rest)) : digits12 ds := by
  unfold take12Digits at h
  split at h
  · cases h
  · rename_i d
    split at h
    · rename_i hd
      injection h with h1
      injection h1 with ha hb
      subst ha
      exact Or.inl ⟨d, rfl, hd⟩
    · cases h
  · rename_i d1 d2 tl
    split at h
    · rename_i hd1
      split at h
      · rename_i hd2
        injection h with h1
        injection h1 with ha hb
        subst ha
        exact Or.inr ⟨d1, d2, rfl, hd1, hd2⟩
      · injection h with h1
        injection h1 with ha hb
        subst ha
        exact Or.inl ⟨d1, rfl, hd1⟩
    · cases h

theorem matchOptColonMin_shape (cs : List Char) :
    minShape (matchOptColonMin cs).1 := by
  unfold matchOptColonMin
  split
  · rename_i d1 d2 rest
    split
    · rename_i hd
      rw [Bool.and_eq_true] at hd
      exact ⟨d1, d2, rfl, hd.1, hd.2⟩
    · trivial
  · trivial

theorem matchPeriod_shape {cs : List Char} {ps rest : List Char}
    (h : matchPeriod cs = some (ps, rest)) : periodShape ps := by
  unfold matchPeriod at h
  split at h
  · rename_i a b tl
    split at h
    · rename_i hcond
      injection h with h1
      injection h1 with ha hb
      subst ha
      simp only [Bool.and_eq_true, Bool.or_eq_true, beq_iff_eq] at hcond
      obtain ⟨ha2, hb2⟩ := hcond
      unfold periodShape
      rcases ha2 with ((rfl | rfl) | rfl) | rfl <;> rcases hb2 with rfl | rfl
        <;> decide
    · cases h
  · cases h

theorem matchAt_shape {cs : List Char} {tm : TimeMatch}
    (h : matchAt cs = some tm) :
    digits12 tm.closeHour ∧ minShape tm.closeMin ∧
      periodShape tm.closePeriod := by
  unfold matchAt at h
  split at h
  · cases h
  · rename_i openHour cs1
    simp only [] at h
    split at h
    · cases h
    · rename_i openPeriod cs3 hper1
      split at h
      · cases h
      · rename_i cs4 hdash
        split at h
        · cases h
        · rename_i closeHour cs5 hch
          split at h
          · cases h
          · rename_i closePeriod rest hper2
            injection h with h1
            subst h1
            exact ⟨take12Digits_shape hch, matchOptColonMin_shape cs5,
              matchPeriod_shape hper2⟩

theorem searchTM_shape {cs : List Char} {tm : TimeMatch}
    (h : searchTM cs = some tm) :
    digits12 tm.closeHour ∧ minShape tm.closeMin ∧
      periodShape tm.closePeriod := by
  induction cs with
  | nil => cases h
  | cons c tl ih =>
    unfold searchTM at h
    cases hm : matchAt (c :: tl) with
    | some tm2 =>
      rw [hm] at h
      injection h with h1
      subst h1
      exact matchAt_shape hm
    | none =>
      rw [hm] at h
      exact ih h

theorem timeMatch_shape {e : String} {tm : TimeMatch}
    (h : timeMatch e = some tm) :
    digits12 tm.closeHour ∧ minShape tm.closeMin ∧
      periodShape tm.closePeriod :=
  searchTM_shape h

theorem is12HourFormat_fmt12 {hd : List Char} {mn : Option (List Char)}
    {pd : List Char} (h1 : digits12 hd) (h2 : minShape mn)
    (h3 : periodShape pd) :
    is12HourFormat (fmt12 hd mn pd) = true := by
  have hmn : ∃ m1 m2, mn.getD ['0', '0'] = [m1, m2] ∧
      m1.isDigit = true ∧ m2.isDigit = true := by
    cases mn with
    | none => exact ⟨'0', '0', rfl, by decide, by decide⟩
    | some ms =>
      obtain ⟨m1, m2, rfl, hm1, hm2⟩ := h2
      exact ⟨m1, m2, rfl, hm1, hm2⟩
  obtain ⟨m1, m2, hmeq, hm1, hm2⟩ := hmn
  unfold fmt12 is12HourFormat
  rw [hmeq]
  rcases h1 with ⟨d, rfl, hdd⟩ | ⟨d1, d2, rfl, hda, hdb⟩
  · rcases h3 with hp | hp <;> rw [hp] <;> simp [hdd, hm1, hm2]
  · rcases h3 with hp | hp <;> rw [hp] <;> simp [hda, hdb, hm1, hm2]

theorem yesterdayEntryStatus_guarantees {c : Nat} {d e : String}
    {st : RealTimeStatus} (h : yesterdayEntryStatus c d e = some st) :
    st.message ≠ "" ∧ st.currentPeriod.isSome = true ∧
    ∀ p, st.currentPeriod = some p → st.isOpen = true →
      ∃ s, p.closesAt = some s ∧ is12HourFormat s = true := by
  unfold yesterdayEntryStatus at h
  split at h
  · cases h
  · cases htm : timeMatch e with
    | none => rw [htm] at h; cases h
    | some tm =>
      rw [htm] at h
      simp only [] at h
      split at h
      · injection h with h1
        subst h1
        obtain ⟨hch, hcm, hcp⟩ := timeMatch_shape htm
        refine ⟨?_, rfl, ?_⟩
        · exact append_ne_empty_left (append_ne_empty_left
            (append_ne_empty_left (append_ne_empty_left
              (append_ne_empty_left (by decide) _) _) _) _) _
        · intro p hp _
          injection hp with hp1
          subst hp1
          exact ⟨_, rfl, is12HourFormat_fmt12 hch hcm hcp⟩
      · cases h

theorem todayEntryStatus_guarantees {c : Nat} {d e : String}
    {st : RealTimeStatus} (h : todayEntryStatus c d e = some st) :
    st.message ≠ "" ∧ st.currentPeriod.isSome = true ∧
    ∀ p, st.currentPeriod = some p → st.isOpen = true →
      ∃ s, p.closesAt = some s ∧ is12HourFormat s = true := by
  unfold todayEntryStatus at h
  split at h
  · injection h with h1
    subst h1
    refine ⟨?_, rfl, ?_⟩
    · exact append_ne_empty_left (append_ne_empty_left (by decide) _) _
    · intro p hp hopen
      cases hopen
  · cases htm : timeMatch e with
    | none => rw [htm] at h; cases h
    | some tm =>
      rw [htm] at h
      simp only [] at h
      obtain ⟨hch, hcm, hcp⟩ := timeMatch_shape htm
      have hfmt := is12HourFormat_fmt12 hch hcm hcp
      split at h
      · split at h
        · injection h with h1
          subst h1
          refine ⟨?_, rfl, ?_⟩
          · exact append_ne_empty_left (append_ne_empty_left
              (by decide) _) _
          · intro p hp _
            injection hp with hp1
            subst hp1
            exact ⟨_, rfl, hfmt⟩
        · split at h
          · injection h with h1
            subst h1
            refine ⟨?_, rfl, ?_⟩
            · exact append_ne_empty_left (append_ne_empty_left
                (append_ne_empty_left (append_ne_empty_left
                  (append_ne_empty_left (by decide) _) _) _) _) _
            · intro p hp _
              injection hp with hp1
              subst hp1
              exact ⟨_, rfl, hfmt⟩
          · injection h with h1
            subst h1
            refine ⟨?_, rfl, ?_⟩
            · exact append_ne_empty_left (by decide) _
            · intro p hp hopen
              cases hopen
      · injection h with h1
        subst h1
        refine ⟨?_, rfl, ?_⟩
        · show (if _ = true then _ else if _ then _ else _) ≠ ""
          split
          · exact append_ne_empty_left (by decide) _
          · split
            · exact append_ne_empty_left (by decide) _
            · exact append_ne_empty_left (append_ne_empty_left
                (by decide) _) _
        · intro p hp hopen
          injection hp with hp1
          subst hp1
          replace hopen : decide (openMinutesOf tm ≤ c ∧
              c ≤ closeMinutesOf tm) = true := hopen
          rw [hopen]
          exact ⟨_, rfl, hfmt⟩

/-- C7 amended: isOpen is always set and the message is always a
non-empty string; currentPeriod is populated whenever the evaluation
decided the verdict from a matched day entry, that is when the
yesterday-carryover fires or an entry containing today is found that
is marked closed or parses; and whenever currentPeriod is populated
and the venue is open, closesAt is present in the 12-hour format of
one or two hour digits, a colon, two minute digits and AM or PM. -/
theorem c7_output_guarantees_amended (oh : List String) (g : Bool)
    (now : Instant) :
    (getRealTimeStatus oh g now).message ≠ "" ∧
    (((yesterdayReturn oh now).isSome = true ∨
      ∃ e, findDayEntry oh (dayNames.getD (googleDayIndex now.day) "")
          = some e ∧
        (containsStr (lowerS e) "closed" = true ∨
         (timeMatch e).isSome = true)) →
      (getRealTimeStatus oh g now).currentPeriod.isSome = true) ∧
    ∀ p, (getRealTimeStatus oh g now).currentPeriod = some p →
      (getRealTimeStatus oh g now).isOpen = true →
      ∃ s, p.closesAt = some s ∧ is12HourFormat s = true := by
  by_cases he : oh.isEmpty = true
  · have hoh : oh = [] := by
      cases oh with
      | nil => rfl
      | cons a l => cases he
    subst hoh
    refine ⟨?_, ?_, ?_⟩
    · show ("Hours not available" : String) ≠ ""
      decide
    · intro hcase
      exfalso
      rcases hcase with hs | ⟨e, hfe, -⟩
      · exact Bool.noConfusion hs
      · cases hfe
    · intro p hp
      cases hp
  · rw [Bool.not_eq_true] at he
    cases hy : yesterdayReturn oh now with
    | some st =>
      rw [getRealTimeStatus_yesterday_some g he hy]
      obtain ⟨e, -, hes⟩ := yesterdayReturn_inv hy
      have hg := yesterdayEntryStatus_guarantees hes
      exact ⟨hg.1, fun _ => hg.2.1, hg.2.2⟩
    | none =>
      rw [getRealTimeStatus_yesterday_none g he hy]
      cases ht : todayReturn oh now with
      | some st =>
        obtain ⟨e, -, hes⟩ := todayReturn_inv ht
        have hg := todayEntryStatus_guarantees hes
        exact ⟨hg.1, fun _ => hg.2.1, hg.2.2⟩
      | none =>
        refine ⟨?_, ?_, ?_⟩
        · cases g <;> decide
        · intro hcase
          exfalso
          rcases hcase with hs | ⟨e, hfe, hce⟩
          · simp at hs
          · obtain ⟨hnc, hnm⟩ := todayReturn_none_inv ht hfe
            rcases hce with hcl | hsm
            · rw [hnc] at hcl
              simp at hcl
            · rw [hnm] at hsm
              simp at hsm
        · intro p hp
          cases hp

/-- C7 witness: for the workday Monday schedule at Monday noon the
populated-period implication fires through its parsable-entry arm. -/
theorem c7_witness :
    (getRealTimeStatus mondayWorkdaySchedule false
      mondayAtNoon).currentPeriod.isSome = true :=
  (c7_output_guarantees_amended mondayWorkdaySchedule false
    mondayAtNoon).2.1
    (Or.inr ⟨"Monday: 9:00 am – 5:00 pm", by decide,
      Or.inr (by decide)⟩)

end WhereToEat
